import Mathlib

/-!
Zehnder RF fan protocol: constants, types, controller state and frame checksum.

Embedding of `components/zehnder/zehnder.h`.  The header holds the protocol
constants, the enumerations, the `Result` type and the declaration of the
`ZehnderRF` class (its data members with their in-class initialisers and the
signatures of its methods).  Bytes and other unsigned machine integers are
natural numbers together with an explicit range predicate; `int8_t` values are
integers with an explicit range predicate.
-/

namespace Zehnder

/-! ## Preprocessor constants (zehnder.h:14-25, 60-62) -/

/-- Each frame consists of 16 bytes. -/
def FAN_FRAMESIZE : Nat := 16
/-- Retransmit every transmitted frame 4 times. -/
def FAN_TX_FRAMES : Nat := 4
/-- Retry transmission 10 times if no reply is received. -/
def FAN_TX_RETRIES : Nat := 10
/-- Default time-to-live for a frame. -/
def FAN_TTL : Nat := 250
/-- Wait 1000 ms for receiving a reply. -/
def FAN_REPLY_TIMEOUT : Nat := 1000

def FAN_UNIT_TYPE_MAIN : Nat := 0x01
def FAN_UNIT_TYPE_REMOTE : Nat := 0x02
def FAN_NETWORK_LINK_TTL : Nat := 3
def FAN_UPDATE_SETTINGS : Nat := 0x07
def FAN_SET_SPEED_TIMER : Nat := 0x03

def NETWORK_LINK_ID : Nat := 0xA55A5AA5
def NETWORK_DEFAULT_ID : Nat := 0xE7E7E7E7
def FAN_JOIN_DEFAULT_TIMEOUT : Nat := 10000

/-! ## Anonymous enumerations (zehnder.h:27-58) -/

/-- Broadcast to all devices. -/
def FAN_TYPE_BROADCAST : Nat := 0x00
/-- Fans. -/
def FAN_TYPE_MAIN_UNIT : Nat := 0x01
/-- Remote controls. -/
def FAN_TYPE_REMOTE_CONTROL : Nat := 0x03
/-- CO2 sensors. -/
def FAN_TYPE_CO2_SENSOR : Nat := 0x18

/-- The enumerators of the device type enumeration, in declaration order. -/
def fanDeviceTypes : List Nat :=
  [FAN_TYPE_BROADCAST, FAN_TYPE_MAIN_UNIT, FAN_TYPE_REMOTE_CONTROL, FAN_TYPE_CO2_SENSOR]

def FAN_FRAME_SETVOLTAGE : Nat := 0x01
def FAN_FRAME_SETSPEED : Nat := 0x02
def FAN_FRAME_SETTIMER : Nat := 0x03
def FAN_NETWORK_JOIN_REQUEST : Nat := 0x04
def FAN_FRAME_SETSPEED_REPLY : Nat := 0x05
def FAN_NETWORK_JOIN_OPEN : Nat := 0x06
def FAN_TYPE_FAN_SETTINGS : Nat := 0x07
def FAN_FRAME_0B : Nat := 0x0B
def FAN_NETWORK_JOIN_ACK : Nat := 0x0C
def FAN_TYPE_QUERY_NETWORK : Nat := 0x0D
def FAN_TYPE_QUERY_DEVICE : Nat := 0x10
def FAN_FRAME_SETVOLTAGE_REPLY : Nat := 0x1D

/-- The enumerators of the command enumeration, in declaration order. -/
def fanCommands : List Nat :=
  [FAN_FRAME_SETVOLTAGE, FAN_FRAME_SETSPEED, FAN_FRAME_SETTIMER, FAN_NETWORK_JOIN_REQUEST,
   FAN_FRAME_SETSPEED_REPLY, FAN_NETWORK_JOIN_OPEN, FAN_TYPE_FAN_SETTINGS, FAN_FRAME_0B,
   FAN_NETWORK_JOIN_ACK, FAN_TYPE_QUERY_NETWORK, FAN_TYPE_QUERY_DEVICE,
   FAN_FRAME_SETVOLTAGE_REPLY]

def FAN_SPEED_AUTO : Nat := 0x00
def FAN_SPEED_LOW : Nat := 0x01
def FAN_SPEED_MEDIUM : Nat := 0x02
def FAN_SPEED_HIGH : Nat := 0x03
def FAN_SPEED_MAX : Nat := 0x04

/-- The enumerators of the speed preset enumeration, in declaration order. -/
def fanSpeedPresets : List Nat :=
  [FAN_SPEED_AUTO, FAN_SPEED_LOW, FAN_SPEED_MEDIUM, FAN_SPEED_HIGH, FAN_SPEED_MAX]

/-! ## Machine integer ranges -/

/-- Values of type `uint8_t`. -/
def uint8_ok (n : Nat) : Prop := n < 2 ^ 8
/-- Values of type `uint32_t`. -/
def uint32_ok (n : Nat) : Prop := n < 2 ^ 32
/-- Values of type `int8_t`. -/
def int8_ok (x : Int) : Prop := -128 ≤ x ∧ x ≤ 127

instance (n : Nat) : Decidable (uint8_ok n) := by unfold uint8_ok; infer_instance
instance (n : Nat) : Decidable (uint32_ok n) := by unfold uint32_ok; infer_instance
instance (x : Int) : Decidable (int8_ok x) := by unfold int8_ok; infer_instance

/-! ## Named enumerations (zehnder.h:64, 110-125, 156-162) -/

/-- Outcome of a synchronous request: `typedef enum { ResultOk, ResultBusy, ResultFailure } Result`. -/
inductive Result
  | ResultOk
  | ResultBusy
  | ResultFailure
deriving DecidableEq, Repr

/-- Integer value of a `Result` enumerator (enumerators without explicit value count from 0). -/
def Result.toNat : Result → Nat
  | .ResultOk => 0
  | .ResultBusy => 1
  | .ResultFailure => 2

/-- Identifier of a `Result` enumerator as spelled in the header. -/
def Result.ident : Result → String
  | .ResultOk => "ResultOk"
  | .ResultBusy => "ResultBusy"
  | .ResultFailure => "ResultFailure"

/-- Application state machine states, `ZehnderRF::State`. -/
inductive State
  | StateStartup
  | StateStartDiscovery
  | StateDiscoveryWaitForLinkRequest
  | StateDiscoveryWaitForLinkAck
  | StateDiscoveryWaitForJoinResponse
  | StateDiscoveryJoinComplete
  | StateIdle
  | StateWaitQueryResponse
  | StateWaitSetSpeedResponse
  | StateWaitSetSpeedConfirm
  | StateWaitQueryForUpdate
  | StateNrOf
deriving DecidableEq, Repr

/-- Integer value of a `State` enumerator. -/
def State.toNat : State → Nat
  | .StateStartup => 0
  | .StateStartDiscovery => 1
  | .StateDiscoveryWaitForLinkRequest => 2
  | .StateDiscoveryWaitForLinkAck => 3
  | .StateDiscoveryWaitForJoinResponse => 4
  | .StateDiscoveryJoinComplete => 5
  | .StateIdle => 6
  | .StateWaitQueryResponse => 7
  | .StateWaitSetSpeedResponse => 8
  | .StateWaitSetSpeedConfirm => 9
  | .StateWaitQueryForUpdate => 10
  | .StateNrOf => 11

/-- The enumerators of `State`, in declaration order. -/
def State.all : List State :=
  [.StateStartup, .StateStartDiscovery, .StateDiscoveryWaitForLinkRequest,
   .StateDiscoveryWaitForLinkAck, .StateDiscoveryWaitForJoinResponse,
   .StateDiscoveryJoinComplete, .StateIdle, .StateWaitQueryResponse,
   .StateWaitSetSpeedResponse, .StateWaitSetSpeedConfirm, .StateWaitQueryForUpdate,
   .StateNrOf]

/-- Transport state machine states, `ZehnderRF::RfState`. -/
inductive RfState
  | RfStateIdle
  | RfStateWaitAirwayFree
  | RfStateTxBusy
  | RfStateRxWait
  | RfStateRxBusy
deriving DecidableEq, Repr

/-- Integer value of an `RfState` enumerator. -/
def RfState.toNat : RfState → Nat
  | .RfStateIdle => 0
  | .RfStateWaitAirwayFree => 1
  | .RfStateTxBusy => 2
  | .RfStateRxWait => 3
  | .RfStateRxBusy => 4

/-! ## Declarations: C types, data members and method signatures -/

/-- The C++ types that occur in the declarations modelled here. -/
inductive CType
  | void
  | bool
  | int
  | uint8_t
  | int8_t
  | uint16_t
  | uint32_t
  | size_t
  | ptr_uint8_t
  | function_void
  | Result
deriving DecidableEq, Repr

/-- Width in bits of the fixed-width integer types. -/
def CType.bits : CType → Option Nat
  | .uint8_t => some 8
  | .int8_t => some 8
  | .uint16_t => some 16
  | .uint32_t => some 32
  | _ => none

/-- One formal parameter of a method: name, type and default argument, if any
(`NULL` is recorded as 0). -/
structure ParamDecl where
  name : String
  type : CType
  dflt : Option Int
deriving DecidableEq, Repr

/-- Signature of a method: its return type and its parameters. -/
structure MethodDecl where
  ret : CType
  params : List ParamDecl
deriving DecidableEq, Repr

/-- Signature `void setSpeed(const uint8_t speed, const uint8_t timer = 0)` (zehnder.h:85). -/
def setSpeed_decl : MethodDecl :=
  { ret := CType.void,
    params := [⟨"speed", CType.uint8_t, none⟩, ⟨"timer", CType.uint8_t, some 0⟩] }

/-- Signature `uint8_t get_error_status() const` (zehnder.h:90). -/
def get_error_status_decl : MethodDecl :=
  { ret := CType.uint8_t, params := [] }

/-- Signature `Result startTransmit(const uint8_t *const pData, const int8_t rxRetries = -1,
const std::function<void(void)> callback = NULL)` (zehnder.h:97-98). -/
def startTransmit_decl : MethodDecl :=
  { ret := CType.Result,
    params := [⟨"pData", CType.ptr_uint8_t, none⟩, ⟨"rxRetries", CType.int8_t, some (-1)⟩,
               ⟨"callback", CType.function_void, some 0⟩] }

/-- Default argument of the parameter called `name`, if the method has such a parameter and
the parameter has a default. -/
def MethodDecl.defaultOf (m : MethodDecl) (name : String) : Option Int :=
  match m.params.find? (fun q => q.name == name) with
  | some q => q.dflt
  | none => none

/-- The persisted addressing record, `ZehnderRF::Config` (zehnder.h:136-142). -/
structure Config where
  fan_networkId : Nat
  fan_my_device_type : Nat
  fan_my_device_id : Nat
  fan_main_unit_type : Nat
  fan_main_unit_id : Nat
deriving DecidableEq, Repr

/-- Member declarations of `Config`, in declaration order, with their types. -/
def Config_members : List (String × CType) :=
  [("fan_networkId", CType.uint32_t), ("fan_my_device_type", CType.uint8_t),
   ("fan_my_device_id", CType.uint8_t), ("fan_main_unit_type", CType.uint8_t),
   ("fan_main_unit_id", CType.uint8_t)]

/-- Widths in bits of the members of `Config`, in declaration order. -/
def Config_widths : List Nat :=
  Config_members.map (fun m => (m.2.bits).getD 0)

/-- Every member of a `Config` value is within the range of its declared type. -/
def Config.WellTyped (c : Config) : Prop :=
  uint32_ok c.fan_networkId ∧ uint8_ok c.fan_my_device_type ∧ uint8_ok c.fan_my_device_id ∧
  uint8_ok c.fan_main_unit_type ∧ uint8_ok c.fan_main_unit_id

/-- A buffer of exactly `n` cells, such as `uint8_t _txFrame[FAN_FRAMESIZE]`. -/
abbrev Buffer (n : Nat) : Type := { l : List Nat // l.length = n }

/-! ## Controller state: the data members of `ZehnderRF` (zehnder.h:87-88, 108-163)

The members are listed in declaration order.  `rf_` (a pointer to the radio driver) and
`pref_` (the preference object) belong to external collaborators and are kept as plain
handles; `onReceiveTimeout_` is `none` for `NULL` and otherwise names the stored callable. -/

/-- The data members of one `ZehnderRF` controller instance. -/
structure ZehnderRF where
  timer : Bool
  voltage : Int
  error_status : Nat
  state_ : State
  speed_count_ : Int
  rf_ : Nat
  interval_ : Nat
  _txFrame : Buffer FAN_FRAMESIZE
  pref_ : Nat
  config_ : Config
  lastFanQuery_ : Nat
  onReceiveTimeout_ : Option Nat
  msgSendTime_ : Nat
  airwayFreeWaitTime_ : Nat
  retries_ : Int
  newSpeed : Nat
  newTimer : Nat
  newSetting : Bool
  rfState_ : RfState
deriving DecidableEq

/-- Every fixed-width member of the controller state is within the range of its declared
type (`uint8_t error_status`, `uint32_t interval_`, `uint8_t _txFrame[]`, `Config config_`,
`uint32_t lastFanQuery_`, `uint32_t msgSendTime_`, `uint32_t airwayFreeWaitTime_`,
`int8_t retries_`, `uint8_t newSpeed`, `uint8_t newTimer`). -/
def ZehnderRF.WellTyped (s : ZehnderRF) : Prop :=
  uint8_ok s.error_status ∧ uint32_ok s.interval_ ∧ (∀ b ∈ s._txFrame.val, uint8_ok b) ∧
  s.config_.WellTyped ∧ uint32_ok s.lastFanQuery_ ∧ uint32_ok s.msgSendTime_ ∧
  uint32_ok s.airwayFreeWaitTime_ ∧ int8_ok s.retries_ ∧ uint8_ok s.newSpeed ∧
  uint8_ok s.newTimer

/-- The members that have no in-class initialiser; their value after construction is not
fixed by the header. -/
structure Uninitialised where
  timer : Bool
  voltage : Int
  rf_ : Nat
  interval_ : Nat
  _txFrame : Buffer FAN_FRAMESIZE
  pref_ : Nat
  config_ : Config

/-- Every fixed-width member without initialiser is within the range of its declared
type. -/
def Uninitialised.WellTyped (u : Uninitialised) : Prop :=
  uint32_ok u.interval_ ∧ (∀ b ∈ u._txFrame.val, uint8_ok b) ∧ u.config_.WellTyped

/-- The controller state given by the in-class initialisers: `error_status{0}`,
`state_{StateStartup}`, `speed_count_{}`, `lastFanQuery_{0}`, `onReceiveTimeout_ = NULL`,
`msgSendTime_{0}`, `airwayFreeWaitTime_{0}`, `retries_{-1}`, `newSpeed{0}`, `newTimer{0}`,
`newSetting{false}`, `rfState_{RfStateIdle}`. -/
def ZehnderRF.init (u : Uninitialised) : ZehnderRF :=
  { timer := u.timer
    voltage := u.voltage
    error_status := 0
    state_ := State.StateStartup
    speed_count_ := 0
    rf_ := u.rf_
    interval_ := u.interval_
    _txFrame := u._txFrame
    pref_ := u.pref_
    config_ := u.config_
    lastFanQuery_ := 0
    onReceiveTimeout_ := none
    msgSendTime_ := 0
    airwayFreeWaitTime_ := 0
    retries_ := -1
    newSpeed := 0
    newTimer := 0
    newSetting := false
    rfState_ := RfState.RfStateIdle }

/-- An all-zero choice for the members without initialiser, used for concrete evaluation. -/
def Uninitialised.zero : Uninitialised :=
  { timer := false
    voltage := 0
    rf_ := 0
    interval_ := 0
    _txFrame := ⟨List.replicate 16 0, rfl⟩
    pref_ := 0
    config_ := ⟨0, 0, 0, 0, 0⟩ }

/-- Method `uint8_t get_error_status() const { return error_status; }` (zehnder.h:90),
as a state transformer returning the value and the state after the call. -/
def get_error_status (s : ZehnderRF) : Nat × ZehnderRF :=
  (s.error_status, s)

/-- Modelled from the spec: the body of `ZehnderRF::setSpeed`, which is defined outside
zehnder.h.  The signature is the declared one (`setSpeed_decl`): two `uint8_t` arguments and
result type `void`, so the value handed back to the caller is the unit value.  Following
section 4.4 of the spec, a speed outside the enumerated presets is rejected, a request made
before a network identity has been settled is rejected, and otherwise the pending command
(`newSpeed`, `newTimer`, `newSetting`) is overwritten.  `settled` is the test "the controller
has settled a network identity", which neither the header nor the spec pins down. -/
def setSpeed (settled : ZehnderRF → Bool) (s : ZehnderRF) (speed timer : Nat) :
    ZehnderRF × Unit :=
  if speed ∉ fanSpeedPresets then (s, ())
  else if settled s = false then (s, ())
  else ({ s with newSpeed := speed, newTimer := timer, newSetting := true }, ())

/-! ## The documented data model -/

namespace Spec

/-- The fields of the documented wire frame (spec sections 3 and 6). -/
inductive Field
  | destination
  | source
  | timeToLive
  | opcode
  | payload
  | checksum
deriving DecidableEq, Repr

/-- Field widths in bytes of the documented wire frame, in wire order: destination
(device type, device id), source (device type, device id), time-to-live, command opcode,
8 bytes of payload, 2-byte checksum trailer. -/
def frameFields : List (Field × Nat) :=
  [(Field.destination, 2), (Field.source, 2), (Field.timeToLive, 1), (Field.opcode, 1),
   (Field.payload, 8), (Field.checksum, 2)]

/-- Offset of a frame field: the sum of the widths of the fields before it. -/
def fieldOffset (f : Field) : Nat :=
  ((frameFields.takeWhile (fun g => g.1 != f)).map (fun g => g.2)).sum

/-- Width of a frame field. -/
def fieldWidth (f : Field) : Nat :=
  match frameFields.find? (fun g => g.1 == f) with
  | some g => g.2
  | none => 0

/-- Documented number of physical repetitions of a frame. -/
def txRepeatDefault : Nat := 4
/-- Documented reply timeout in milliseconds. -/
def replyTimeoutMsDefault : Nat := 1000
/-- Documented retry limit. -/
def retryLimitDefault : Nat := 10
/-- Documented join timeout in seconds. -/
def joinTimeoutSecondsDefault : Nat := 10

/-- Documented layout of the persisted record: field names and widths in bits. -/
def networkConfigLayout : List (String × Nat) :=
  [("networkId", 32), ("myDeviceType", 8), ("myDeviceId", 8), ("mainUnitType", 8),
   ("mainUnitId", 8)]

end Spec

/-! ## Frame checksum

`calculate_crc16` and `append_crc_to_payload` are declared in zehnder.h:105-106 and defined
elsewhere; the frame decoder is described in section 4.1 of the spec. -/

/-- Modelled from the spec: the parameters of the 16-bit checksum which the spec leaves open
(section 9: polynomial, initial value, byte order), together with the bit order of the
shift register.  `poly` is written in the bit order of the register: for a register that
shifts towards the high bit the constant term of the generator is bit 0 of `poly`, for a
reflected register it is bit 15. -/
structure CrcParams where
  poly : Nat
  init : Nat
  reflected : Bool
  trailerHighByteFirst : Bool
deriving DecidableEq, Repr

/-- The parameters describe a 16-bit generator with a constant term and a 16-bit initial
value. -/
def CrcParams.proper (p : CrcParams) : Bool :=
  decide (p.poly < 65536) && decide (p.init < 65536) &&
    (if p.reflected then p.poly.testBit 15 else p.poly.testBit 0)

/-- Modelled from the spec: part of the body of `calculate_crc16`.  One clock of the 16-bit
shift register: shift by one bit and, when the bit shifted out is set, subtract (exclusive
or) the generator. -/
def crc16_shift (p : CrcParams) (crc : Nat) : Nat :=
  if p.reflected then
    if crc.testBit 0 then (crc / 2) ^^^ p.poly else crc / 2
  else
    if crc.testBit 15 then (crc * 2 % 65536) ^^^ p.poly else crc * 2 % 65536

/-- Modelled from the spec: part of the body of `calculate_crc16`.  Feed one byte into the
register: exclusive-or it into the end of the register that is shifted out first, then clock
the register eight times. -/
def crc16_update (p : CrcParams) (crc byte : Nat) : Nat :=
  (crc16_shift p)^[8] (if p.reflected then crc ^^^ byte else crc ^^^ (byte * 256))

/-- Modelled from the spec: the body of `ZehnderRF::calculate_crc16(data, length)`, declared
in zehnder.h:105 and defined elsewhere.  The spec fixes that it is a 16-bit checksum computed
over the first `length` bytes and leaves polynomial, initial value and byte order open; the
name says it is a cyclic redundancy check.  It is modelled as the bitwise 16-bit shift
register with these open choices as parameters. -/
def calculate_crc16 (p : CrcParams) (data : List Nat) (length : Nat) : Nat :=
  (data.take length).foldl (crc16_update p) p.init

/-- Modelled from the spec: the body of `ZehnderRF::append_crc_to_payload(payload, length)`,
declared in zehnder.h:106 and defined elsewhere: the checksum of the first `length` bytes is
written into the two bytes at offsets `length` and `length + 1` (spec section 4.1: "appends
it at [14..15]"), in the byte order given by the parameters. -/
def append_crc_to_payload (p : CrcParams) (payload : List Nat) (length : Nat) : List Nat :=
  let crc := calculate_crc16 p payload length
  if p.trailerHighByteFirst then
    (payload.set length (crc / 256 % 256)).set (length + 1) (crc % 256)
  else
    (payload.set length (crc % 256)).set (length + 1) (crc / 256 % 256)

/-- Modelled from the spec: part of the decoder.  The 16-bit value stored in the checksum
trailer, bytes 14 and 15 of a frame, read in the byte order in which
`append_crc_to_payload` writes it. -/
def trailer (p : CrcParams) (bytes : List Nat) : Nat :=
  if p.trailerHighByteFirst then
    bytes.getD (FAN_FRAMESIZE - 2) 0 * 256 + bytes.getD (FAN_FRAMESIZE - 1) 0
  else
    bytes.getD (FAN_FRAMESIZE - 2) 0 + bytes.getD (FAN_FRAMESIZE - 1) 0 * 256

/-- Modelled from the spec: the two ways in which decoding fails (section 4.1). -/
inductive DecodeError
  | InvalidLength
  | InvalidChecksum
deriving DecidableEq, Repr

/-- Modelled from the spec: the structured fields of a decoded frame (sections 3 and 6). -/
structure Frame where
  destType : Nat
  destId : Nat
  srcType : Nat
  srcId : Nat
  ttl : Nat
  opcode : Nat
  payload : List Nat
deriving DecidableEq, Repr

/-- Modelled from the spec: the frame decoder of section 4.1, which has no counterpart in
zehnder.h.  It fails with `InvalidLength` if the input is not exactly 16 bytes, fails with
`InvalidChecksum` if the checksum recomputed over bytes 0..13 does not match the trailer,
and otherwise returns the fields without further validation. -/
def decode (p : CrcParams) (bytes : List Nat) : Except DecodeError Frame :=
  if bytes.length ≠ FAN_FRAMESIZE then Except.error DecodeError.InvalidLength
  else if calculate_crc16 p bytes (FAN_FRAMESIZE - 2) ≠ trailer p bytes then
    Except.error DecodeError.InvalidChecksum
  else
    Except.ok
      { destType := bytes.getD 0 0
        destId := bytes.getD 1 0
        srcType := bytes.getD 2 0
        srcId := bytes.getD 3 0
        ttl := bytes.getD 4 0
        opcode := bytes.getD 5 0
        payload := (bytes.drop 6).take 8 }

/-- The byte string `bytes` with bit `k` of the byte at offset `i` inverted. -/
def flipBit (bytes : List Nat) (i k : Nat) : List Nat :=
  bytes.set i (bytes.getD i 0 ^^^ 2 ^ k)

/-- The CCITT parameters (generator 0x1021, initial value 0xFFFF, high bit first, trailer
high byte first), used for concrete evaluation. -/
def crcCcitt : CrcParams :=
  { poly := 0x1021, init := 0xFFFF, reflected := false, trailerHighByteFirst := true }

/-- The reflected parameters with generator 0xA001, initial value 0xFFFF and trailer low
byte first, used for concrete evaluation. -/
def crcReflected : CrcParams :=
  { poly := 0xA001, init := 0xFFFF, reflected := true, trailerHighByteFirst := false }

/-- A sample set-speed frame buffer with an empty trailer, used for concrete evaluation. -/
def sampleFrame : List Nat :=
  [0x01, 0x2A, 0x03, 0x17, 0xFA, 0x02, 0x01, 0x03, 0, 0, 0, 0, 0, 0, 0, 0]

end Zehnder

namespace Zehnder

/-! ## Initial state -/

/-- The values given by the in-class initialisers lie in the ranges of the declared member
types: the initial state is well typed exactly when the members without initialiser are. -/
theorem init_wellTyped_iff (u : Uninitialised) : (ZehnderRF.init u).WellTyped ↔ u.WellTyped := by
  have h8 : uint8_ok 0 := by decide
  have h32 : uint32_ok 0 := by decide
  have hi : int8_ok (-1) := by decide
  simp [ZehnderRF.WellTyped, Uninitialised.WellTyped, ZehnderRF.init, h8, h32, hi]

/-! ## Frame size -/

/-- C1: the wire frame is exactly 16 bytes.  `FAN_FRAMESIZE` is 16, the transmit buffer
`_txFrame` of every controller state holds exactly `FAN_FRAMESIZE` = 16 bytes, the documented
field widths 2 + 2 + 1 + 1 + 8 + 2 sum to `FAN_FRAMESIZE`, the checksum trailer occupies
offsets 14 and 15, and the bytes before it are `FAN_FRAMESIZE - 2` = 14. -/
theorem frame_is_sixteen_bytes :
    FAN_FRAMESIZE = 16 ∧
    (∀ s : ZehnderRF, s._txFrame.val.length = FAN_FRAMESIZE ∧ s._txFrame.val.length = 16) ∧
    Spec.frameFields.map (fun f => f.2) = [2, 2, 1, 1, 8, 2] ∧
    (Spec.frameFields.map (fun f => f.2)).sum = FAN_FRAMESIZE ∧
    Spec.fieldOffset Spec.Field.destination = 0 ∧
    Spec.fieldOffset Spec.Field.source = 2 ∧
    Spec.fieldOffset Spec.Field.timeToLive = 4 ∧
    Spec.fieldOffset Spec.Field.opcode = 5 ∧
    Spec.fieldOffset Spec.Field.payload = 6 ∧
    Spec.fieldOffset Spec.Field.checksum = 14 ∧
    Spec.fieldOffset Spec.Field.checksum + Spec.fieldWidth Spec.Field.checksum = 16 ∧
    Spec.fieldOffset Spec.Field.checksum = FAN_FRAMESIZE - 2 ∧
    FAN_FRAMESIZE - 2 = 14 := by
  refine ⟨rfl, fun s => ⟨s._txFrame.property, s._txFrame.property⟩, ?_, ?_, ?_, ?_, ?_, ?_, ?_,
    ?_, ?_, ?_, ?_⟩ <;> decide

/-! ## Result codes -/

/-- C4: synchronous request outcomes are three-valued.  Every `Result` value is one of
`ResultOk`, `ResultBusy`, `ResultFailure`; the three are pairwise distinct, also as integer
codes (0, 1, 2); and the declared return type of `startTransmit` is `Result`. -/
theorem result_three_valued :
    (∀ r : Result, r = Result.ResultOk ∨ r = Result.ResultBusy ∨ r = Result.ResultFailure) ∧
    Result.ResultOk ≠ Result.ResultBusy ∧
    Result.ResultOk ≠ Result.ResultFailure ∧
    Result.ResultBusy ≠ Result.ResultFailure ∧
    [Result.ResultOk, Result.ResultBusy, Result.ResultFailure].map Result.toNat = [0, 1, 2] ∧
    Function.Injective Result.toNat ∧
    startTransmit_decl.ret = CType.Result := by
  refine ⟨?_, by decide, by decide, by decide, rfl, ?_, rfl⟩
  · intro r
    cases r <;> simp
  · intro a b h
    cases a <;> cases b <;> first | rfl | (exact absurd h (by decide))

/-! ## Transport defaults -/

/-- C5: the transport defaults in the code equal the documented ones.  A frame is repeated
`FAN_TX_FRAMES` = 4 times, `FAN_REPLY_TIMEOUT` is 1000 ms, `FAN_TX_RETRIES` is 10 and
`FAN_JOIN_DEFAULT_TIMEOUT` is 10000 ms = 10 s.  The retry limit 10 lies in the range of the
`int8_t` retry counters and differs from -1, which is the default of the `rxRetries`
parameter of `startTransmit` and the initial value of `retries_`. -/
theorem transport_defaults :
    FAN_TX_FRAMES = 4 ∧ FAN_TX_FRAMES = Spec.txRepeatDefault ∧
    FAN_REPLY_TIMEOUT = 1000 ∧ FAN_REPLY_TIMEOUT = Spec.replyTimeoutMsDefault ∧
    FAN_TX_RETRIES = 10 ∧ FAN_TX_RETRIES = Spec.retryLimitDefault ∧
    FAN_JOIN_DEFAULT_TIMEOUT = 10000 ∧
    FAN_JOIN_DEFAULT_TIMEOUT = Spec.joinTimeoutSecondsDefault * 1000 ∧
    int8_ok (FAN_TX_RETRIES : Int) ∧
    (FAN_TX_RETRIES : Int) ≠ -1 ∧
    startTransmit_decl.params.map (fun q => (q.name, q.type, q.dflt)) =
      [("pData", CType.ptr_uint8_t, none), ("rxRetries", CType.int8_t, some (-1)),
       ("callback", CType.function_void, some 0)] ∧
    startTransmit_decl.defaultOf "rxRetries" = some (-1) ∧
    (∀ u : Uninitialised, (ZehnderRF.init u).retries_ = -1) ∧
    (∀ u : Uninitialised, (ZehnderRF.init u).retries_ ≠ (FAN_TX_RETRIES : Int)) := by
  refine ⟨rfl, rfl, rfl, rfl, rfl, rfl, rfl, rfl, by decide, by decide, rfl, by decide,
    fun _ => rfl, ?_⟩
  intro u
  show (-1 : Int) ≠ ((10 : Nat) : Int)
  decide

/-! ## Speed presets -/

/-- C6: the speed presets are exactly AUTO = 0, LOW = 1, MEDIUM = 2, HIGH = 3, MAX = 4,
five pairwise distinct codes forming the contiguous range 0..4, so a speed value is one of
the presets if and only if it is at most `FAN_SPEED_MAX`; and the `timer` parameter of
`setSpeed` has the default argument 0. -/
theorem speed_presets_contiguous :
    FAN_SPEED_AUTO = 0 ∧ FAN_SPEED_LOW = 1 ∧ FAN_SPEED_MEDIUM = 2 ∧ FAN_SPEED_HIGH = 3 ∧
    FAN_SPEED_MAX = 4 ∧
    fanSpeedPresets.length = 5 ∧ fanSpeedPresets.Nodup ∧
    fanSpeedPresets = List.range (FAN_SPEED_MAX + 1) ∧
    (∀ speed : Nat, speed ∈ fanSpeedPresets ↔ speed ≤ FAN_SPEED_MAX) ∧
    (∀ speed : Nat, uint8_ok speed ∧ speed ∉ fanSpeedPresets ↔
      FAN_SPEED_MAX < speed ∧ speed ≤ 255) ∧
    setSpeed_decl.params.map (fun q => (q.name, q.type, q.dflt)) =
      [("speed", CType.uint8_t, none), ("timer", CType.uint8_t, some 0)] ∧
    setSpeed_decl.defaultOf "timer" = some 0 := by
  refine ⟨rfl, rfl, rfl, rfl, rfl, rfl, by decide, by decide, ?_, ?_, rfl, by decide⟩
  · intro speed
    simp only [fanSpeedPresets, FAN_SPEED_AUTO, FAN_SPEED_LOW, FAN_SPEED_MEDIUM,
      FAN_SPEED_HIGH, FAN_SPEED_MAX, List.mem_cons, List.mem_singleton, List.not_mem_nil,
      or_false]
    omega
  · intro speed
    simp only [fanSpeedPresets, FAN_SPEED_AUTO, FAN_SPEED_LOW, FAN_SPEED_MEDIUM,
      FAN_SPEED_HIGH, FAN_SPEED_MAX, List.mem_cons, List.mem_singleton, List.not_mem_nil,
      or_false, uint8_ok]
    omega

/-! ## Persisted record -/

/-- C7: the record `Config` has exactly five members, in the documented order and with the
documented widths: a 32-bit network id followed by four 8-bit members, 8 bytes of data in
all; `NETWORK_LINK_ID` (0xA55A5AA5) and `NETWORK_DEFAULT_ID` (0xE7E7E7E7) both fit the 32-bit
network id member and differ from each other. -/
theorem config_layout :
    Config_members.length = 5 ∧
    Config_members.map (fun m => m.2) =
      [CType.uint32_t, CType.uint8_t, CType.uint8_t, CType.uint8_t, CType.uint8_t] ∧
    Config_widths = [32, 8, 8, 8, 8] ∧
    Config_widths = Spec.networkConfigLayout.map (fun f => f.2) ∧
    Config_widths.sum = 8 * 8 ∧
    NETWORK_LINK_ID = 0xA55A5AA5 ∧ NETWORK_DEFAULT_ID = 0xE7E7E7E7 ∧
    uint32_ok NETWORK_LINK_ID ∧ uint32_ok NETWORK_DEFAULT_ID ∧
    NETWORK_LINK_ID ≠ NETWORK_DEFAULT_ID ∧
    (∀ a b c d : Nat, uint8_ok a ∧ uint8_ok b ∧ uint8_ok c ∧ uint8_ok d ↔
      (Config.mk NETWORK_LINK_ID a b c d).WellTyped) := by
  refine ⟨rfl, rfl, rfl, rfl, rfl, rfl, rfl, by decide, by decide, by decide, ?_⟩
  intro a b c d
  have h : uint32_ok NETWORK_LINK_ID := by decide
  simp [Config.WellTyped, h]

/-! ## Error indicator -/

/-- C8: `get_error_status` returns exactly the current value of `error_status` and leaves
the whole controller state unchanged; on the state given by the in-class initialisers it
returns 0. -/
theorem get_error_status_pure_read :
    (∀ s : ZehnderRF, (get_error_status s).1 = s.error_status ∧ (get_error_status s).2 = s) ∧
    (∀ u : Uninitialised, (get_error_status (ZehnderRF.init u)).1 = 0) ∧
    get_error_status_decl.ret = CType.uint8_t ∧ get_error_status_decl.params = [] :=
  ⟨fun _ => ⟨rfl, rfl⟩, fun _ => rfl, rfl, rfl⟩

/-! ## The two state machines -/

/-- C9: the application state and the transport state are two separate members that start
where the documented chains start.  In the state given by the in-class initialisers `state_`
is `StateStartup`, `rfState_` is `RfStateIdle`, no command is pending (`newSetting` false,
`newSpeed` and `newTimer` 0) and `retries_` is -1; writing one of the two state members does
not change the other; the enumerators of `State` strictly between `StateStartup` and
`StateIdle` are the five join states in handshake order; and every `RfState` value is one of
the five states Idle, WaitAirwayFree, TxBusy, RxWait, RxBusy, which are pairwise distinct. -/
theorem state_machines_initial_and_shape :
    (∀ u : Uninitialised,
      (ZehnderRF.init u).state_ = State.StateStartup ∧
      (ZehnderRF.init u).rfState_ = RfState.RfStateIdle ∧
      (ZehnderRF.init u).newSetting = false ∧
      (ZehnderRF.init u).newSpeed = 0 ∧
      (ZehnderRF.init u).newTimer = 0 ∧
      (ZehnderRF.init u).retries_ = -1) ∧
    (∀ (s : ZehnderRF) (a : State), ({ s with state_ := a }).rfState_ = s.rfState_) ∧
    (∀ (s : ZehnderRF) (r : RfState), ({ s with rfState_ := r }).state_ = s.state_) ∧
    State.all.map State.toNat = List.range 12 ∧
    (∀ a : State, a ∈ State.all) ∧
    State.all.filter (fun a =>
        decide (State.StateStartup.toNat < a.toNat ∧ a.toNat < State.StateIdle.toNat)) =
      [State.StateStartDiscovery, State.StateDiscoveryWaitForLinkRequest,
       State.StateDiscoveryWaitForLinkAck, State.StateDiscoveryWaitForJoinResponse,
       State.StateDiscoveryJoinComplete] ∧
    State.all.take 7 =
      [State.StateStartup, State.StateStartDiscovery, State.StateDiscoveryWaitForLinkRequest,
       State.StateDiscoveryWaitForLinkAck, State.StateDiscoveryWaitForJoinResponse,
       State.StateDiscoveryJoinComplete, State.StateIdle] ∧
    (∀ r : RfState, r = RfState.RfStateIdle ∨ r = RfState.RfStateWaitAirwayFree ∨
      r = RfState.RfStateTxBusy ∨ r = RfState.RfStateRxWait ∨ r = RfState.RfStateRxBusy) ∧
    [RfState.RfStateIdle, RfState.RfStateWaitAirwayFree, RfState.RfStateTxBusy,
      RfState.RfStateRxWait, RfState.RfStateRxBusy].map RfState.toNat = [0, 1, 2, 3, 4] := by
  refine ⟨fun _ => ⟨rfl, rfl, rfl, rfl, rfl, rfl⟩, fun _ _ => rfl, fun _ _ => rfl, by decide,
    ?_, by decide, rfl, ?_, rfl⟩
  · intro a
    cases a <;> decide
  · intro r
    cases r <;> simp

/-! ## Protocol constants -/

/-- C10: evaluation of the protocol constants.  `FAN_UNIT_TYPE_REMOTE` is 0x02 whereas the
device type enumeration gives remote controls the value `FAN_TYPE_REMOTE_CONTROL` = 0x03, so
these two constants for the remote control device type disagree.  The other duplicated
constants agree (`FAN_UNIT_TYPE_MAIN` = `FAN_TYPE_MAIN_UNIT`, `FAN_UPDATE_SETTINGS` =
`FAN_TYPE_FAN_SETTINGS`, `FAN_SET_SPEED_TIMER` = `FAN_FRAME_SETTIMER`), the twelve command
opcodes are pairwise distinct, the four device types are pairwise distinct, and every
opcode, every device type and `FAN_TTL` = 250 = 0xFA fits in one byte. -/
theorem protocol_constants_evaluated :
    FAN_UNIT_TYPE_REMOTE = 0x02 ∧ FAN_TYPE_REMOTE_CONTROL = 0x03 ∧
    FAN_UNIT_TYPE_REMOTE ≠ FAN_TYPE_REMOTE_CONTROL ∧
    FAN_UNIT_TYPE_REMOTE ∉ fanDeviceTypes ∧
    FAN_UNIT_TYPE_MAIN = FAN_TYPE_MAIN_UNIT ∧
    FAN_UPDATE_SETTINGS = FAN_TYPE_FAN_SETTINGS ∧
    FAN_SET_SPEED_TIMER = FAN_FRAME_SETTIMER ∧
    fanCommands.length = 12 ∧ fanCommands.Nodup ∧
    fanDeviceTypes.length = 4 ∧ fanDeviceTypes.Nodup ∧
    (∀ c ∈ fanCommands, uint8_ok c) ∧ (∀ t ∈ fanDeviceTypes, uint8_ok t) ∧
    FAN_TTL = 250 ∧ FAN_TTL = 0xFA ∧ uint8_ok FAN_TTL := by
  refine ⟨rfl, rfl, by decide, by decide, rfl, rfl, rfl, rfl, by decide, rfl, by decide,
    by decide, by decide, rfl, rfl, by decide⟩

/-! ## Speed requests -/

/-- C3, as stated, fails: the declared return type of `setSpeed` is `void`, not `Result`; no
`Result` enumerator is called InvalidSpeed; and the value handed back for the speed 5, which
is no preset, is the value handed back for the accepted preset 2, although only the latter
request records a pending command. -/
theorem setSpeed_returns_no_result_code :
    setSpeed_decl.ret = CType.void ∧ setSpeed_decl.ret ≠ CType.Result ∧
    (∀ r : Result, r.ident ≠ "InvalidSpeed") ∧
    5 ∉ fanSpeedPresets ∧ 2 ∈ fanSpeedPresets ∧
    (setSpeed (fun _ => true) (ZehnderRF.init Uninitialised.zero) 5 0).2 =
      (setSpeed (fun _ => true) (ZehnderRF.init Uninitialised.zero) 2 0).2 ∧
    (setSpeed (fun _ => true) (ZehnderRF.init Uninitialised.zero) 5 0).1.newSetting = false ∧
    (setSpeed (fun _ => true) (ZehnderRF.init Uninitialised.zero) 2 0).1.newSetting = true := by
  refine ⟨rfl, by decide, ?_, by decide, by decide, rfl, ?_, ?_⟩
  · intro r
    cases r <;> decide
  · rfl
  · rfl

/-- C3, amended: `setSpeed` is total and hands back no result code (its declared return type
is `void`); for every speed value outside the enumerated presets and every timer value, and
likewise whenever no network identity has been settled, the request is dropped: the
controller state is unchanged, so no pending command is recorded. -/
theorem setSpeed_rejects_silently (settled : ZehnderRF → Bool) (s : ZehnderRF)
    (speed timer : Nat) (h : speed ∉ fanSpeedPresets ∨ settled s = false) :
    setSpeed_decl.ret = CType.void ∧
    setSpeed settled s speed timer = (s, ()) ∧
    (setSpeed settled s speed timer).1.newSpeed = s.newSpeed ∧
    (setSpeed settled s speed timer).1.newTimer = s.newTimer ∧
    (setSpeed settled s speed timer).1.newSetting = s.newSetting := by
  have key : setSpeed settled s speed timer = (s, ()) := by
    unfold setSpeed
    rcases h with h | h
    · rw [if_pos h]
    · by_cases hs : speed ∉ fanSpeedPresets
      · rw [if_pos hs]
      · rw [if_neg hs, if_pos h]
  refine ⟨rfl, key, ?_, ?_, ?_⟩ <;> rw [key]

/-- Witness for `setSpeed_rejects_silently`: speed 5 with timer 0 on the initial state. -/
theorem setSpeed_rejects_silently_witness :
    (5 ∉ fanSpeedPresets ∨ (fun _ : ZehnderRF => true) (ZehnderRF.init Uninitialised.zero) = false) ∧
    setSpeed (fun _ => true) (ZehnderRF.init Uninitialised.zero) 5 0 =
      (ZehnderRF.init Uninitialised.zero, ()) :=
  ⟨Or.inl (by decide),
   (setSpeed_rejects_silently (fun _ => true) (ZehnderRF.init Uninitialised.zero) 5 0
      (Or.inl (by decide))).2.1⟩

end Zehnder

namespace Zehnder

/-! ## Checksum: the shift register is injective -/

theorem proper_bounds (p : CrcParams) (hp : p.proper = true) :
    p.poly < 65536 ∧ p.init < 65536 ∧
      (if p.reflected then p.poly.testBit 15 else p.poly.testBit 0) = true := by
  unfold CrcParams.proper at hp
  simp only [Bool.and_eq_true, decide_eq_true_eq] at hp
  exact ⟨hp.1.1, hp.1.2, hp.2⟩

theorem crc16_shift_lt (p : CrcParams) (hp : p.proper = true) (crc : Nat)
    (h : crc < 65536) : crc16_shift p crc < 65536 := by
  obtain ⟨hpoly, -, -⟩ := proper_bounds p hp
  have hx : ∀ x : Nat, x < 65536 → x ^^^ p.poly < 65536 := fun x hx =>
    Nat.xor_lt_two_pow (n := 16) hx hpoly
  unfold crc16_shift
  split_ifs
  · exact hx _ (by omega)
  · omega
  · exact hx _ (by omega)
  · omega

/-- Bit 0 of the register after a clock towards the high bit is the bit shifted out. -/
theorem crc16_shift_low_bit (poly : Nat) (h0 : poly.testBit 0 = true) (x : Nat) :
    (if x.testBit 15 then (x * 2 % 65536) ^^^ poly else x * 2 % 65536) % 2 =
      x / 32768 % 2 := by
  have hp2 : poly % 2 = 1 := by simpa using h0
  have hx : x.testBit 15 = decide (x / 32768 % 2 = 1) := by
    rw [Nat.testBit_to_div_mod]
  rw [hx]
  by_cases hb : x / 32768 % 2 = 1
  · simp only [hb, decide_True, if_true]
    rw [Nat.xor_mod_two_eq]; omega
  · simp only [hb, decide_False, Bool.false_eq_true, if_false]
    omega

/-- Bit 15 of the register after a reflected clock is the bit shifted out. -/
theorem crc16_shift_high_bit (poly : Nat)
    (h15 : poly.testBit 15 = true) (x : Nat) (hx : x < 65536) :
    (if x.testBit 0 then (x / 2) ^^^ poly else x / 2).testBit 15 = x.testBit 0 := by
  have hlow : (x / 2).testBit 15 = false :=
    Nat.testBit_lt_two_pow (i := 15) (by norm_num; omega)
  by_cases hb : x.testBit 0 = true
  · rw [hb, if_pos rfl, Nat.testBit_xor, hlow, h15]; rfl
  · have hb2 : x.testBit 0 = false := by simpa using hb
    rw [hb2]
    simpa using hlow

theorem crc16_shift_inj (p : CrcParams) (hp : p.proper = true) (a b : Nat)
    (ha : a < 65536) (hb : b < 65536) (h : crc16_shift p a = crc16_shift p b) : a = b := by
  obtain ⟨hpoly, -, hbit⟩ := proper_bounds p hp
  unfold crc16_shift at h
  cases hr : p.reflected
  · simp only [hr, Bool.false_eq_true, if_false] at h hbit
    have hab : a / 32768 % 2 = b / 32768 % 2 := by
      rw [← crc16_shift_low_bit p.poly hbit a, ← crc16_shift_low_bit p.poly hbit b, h]
    have hta : a.testBit 15 = decide (a / 32768 % 2 = 1) := by
      rw [Nat.testBit_to_div_mod]
    have htb : b.testBit 15 = decide (b / 32768 % 2 = 1) := by
      rw [Nat.testBit_to_div_mod]
    rw [hta, htb, ← hab] at h
    by_cases hc : a / 32768 % 2 = 1
    · simp only [hc, decide_True, if_true] at h
      have := Nat.xor_left_inj.mp h
      omega
    · simp only [hc, decide_False] at h
      have h2 : a * 2 % 65536 = b * 2 % 65536 := by simpa using h
      omega
  · simp only [hr, if_true] at h hbit
    have hab : a.testBit 0 = b.testBit 0 := by
      rw [← crc16_shift_high_bit p.poly hbit a ha,
        ← crc16_shift_high_bit p.poly hbit b hb, h]
    rw [← hab] at h
    have hab2 : a % 2 = b % 2 := by
      have h1 := hab
      simp only [Nat.testBit_zero, decide_eq_decide] at h1
      omega
    by_cases hc : a.testBit 0 = true
    · rw [hc, if_pos rfl, if_pos rfl] at h
      have := Nat.xor_left_inj.mp h
      omega
    · have hc2 : a.testBit 0 = false := by simpa using hc
      rw [hc2] at h
      have h2 : a / 2 = b / 2 := by simpa using h
      omega

theorem crc16_shift_iter_lt (p : CrcParams) (hp : p.proper = true) (n crc : Nat)
    (h : crc < 65536) : (crc16_shift p)^[n] crc < 65536 := by
  induction n with
  | zero => simpa using h
  | succ n ih =>
    rw [Function.iterate_succ_apply']
    exact crc16_shift_lt p hp _ ih

theorem crc16_shift_iter_inj (p : CrcParams) (hp : p.proper = true) (n a b : Nat)
    (ha : a < 65536) (hb : b < 65536)
    (h : (crc16_shift p)^[n] a = (crc16_shift p)^[n] b) : a = b := by
  induction n with
  | zero => simpa using h
  | succ n ih =>
    rw [Function.iterate_succ_apply', Function.iterate_succ_apply'] at h
    exact ih (crc16_shift_inj p hp _ _ (crc16_shift_iter_lt p hp n a ha)
      (crc16_shift_iter_lt p hp n b hb) h)

/-- The register contents after a byte has been combined into it stay within 16 bits. -/
theorem crc16_mix_lt (p : CrcParams) (crc byte : Nat) (hc : crc < 65536) (hb : byte < 256) :
    (if p.reflected then crc ^^^ byte else crc ^^^ (byte * 256)) < 65536 := by
  split_ifs
  · exact Nat.xor_lt_two_pow (n := 16) hc (by omega)
  · exact Nat.xor_lt_two_pow (n := 16) hc (by omega)

theorem crc16_update_lt (p : CrcParams) (hp : p.proper = true) (crc byte : Nat)
    (hc : crc < 65536) (hb : byte < 256) : crc16_update p crc byte < 65536 :=
  crc16_shift_iter_lt p hp 8 _ (crc16_mix_lt p crc byte hc hb)

/-- Feeding the same byte into two different register contents gives different contents. -/
theorem crc16_update_inj_crc (p : CrcParams) (hp : p.proper = true) (a b byte : Nat)
    (ha : a < 65536) (hb : b < 65536) (hx : byte < 256)
    (h : crc16_update p a byte = crc16_update p b byte) : a = b := by
  have h1 := crc16_shift_iter_inj p hp 8 _ _ (crc16_mix_lt p a byte ha hx)
    (crc16_mix_lt p b byte hb hx) h
  cases hr : p.reflected
  · simp only [hr, Bool.false_eq_true, if_false] at h1
    exact Nat.xor_left_inj.mp h1
  · simp only [hr, if_true] at h1
    exact Nat.xor_left_inj.mp h1

/-- Feeding two different bytes into the same register contents gives different contents. -/
theorem crc16_update_inj_byte (p : CrcParams) (hp : p.proper = true) (crc x y : Nat)
    (hc : crc < 65536) (hx : x < 256) (hy : y < 256)
    (h : crc16_update p crc x = crc16_update p crc y) : x = y := by
  have h1 := crc16_shift_iter_inj p hp 8 _ _ (crc16_mix_lt p crc x hc hx)
    (crc16_mix_lt p crc y hc hy) h
  cases hr : p.reflected
  · simp only [hr, Bool.false_eq_true, if_false] at h1
    have := Nat.xor_right_inj.mp h1
    omega
  · simp only [hr, if_true] at h1
    exact Nat.xor_right_inj.mp h1

theorem crc16_foldl_lt (p : CrcParams) (hp : p.proper = true) (l : List Nat)
    (hl : ∀ b ∈ l, b < 256) (c : Nat) (hc : c < 65536) :
    l.foldl (crc16_update p) c < 65536 := by
  induction l generalizing c with
  | nil => simpa using hc
  | cons x xs ih =>
    rw [List.foldl_cons]
    exact ih (fun b hb => hl b (List.mem_cons_of_mem _ hb)) _
      (crc16_update_lt p hp c x hc (hl x (List.mem_cons_self _ _)))

/-- Different register contents stay different while the same bytes are fed in. -/
theorem crc16_foldl_inj (p : CrcParams) (hp : p.proper = true) (l : List Nat)
    (hl : ∀ b ∈ l, b < 256) (a b : Nat) (ha : a < 65536) (hb : b < 65536)
    (h : l.foldl (crc16_update p) a = l.foldl (crc16_update p) b) : a = b := by
  induction l generalizing a b with
  | nil => simpa using h
  | cons x xs ih =>
    rw [List.foldl_cons, List.foldl_cons] at h
    have hx := hl x (List.mem_cons_self _ _)
    have h1 := ih (fun c hc => hl c (List.mem_cons_of_mem _ hc)) _ _
      (crc16_update_lt p hp a x ha hx) (crc16_update_lt p hp b x hb hx) h
    exact crc16_update_inj_crc p hp a b x ha hb hx h1

/-- Inverting one of the eight bits of a byte gives a different byte. -/
theorem flip_byte (x k : Nat) (hx : x < 256) (hk : k < 8) :
    x ^^^ 2 ^ k < 256 ∧ x ^^^ 2 ^ k ≠ x := by
  constructor
  · have h2 : 2 ^ k < 2 ^ 8 := Nat.pow_lt_pow_right (by norm_num) hk
    exact Nat.xor_lt_two_pow (n := 8) hx h2
  · intro h
    have h0 : x ^^^ 2 ^ k = x ^^^ 0 := by simpa using h
    have h1 : 2 ^ k = 0 := Nat.xor_right_inj.mp h0
    exact absurd h1 (by positivity)

/-- Inverting one bit of the input changes the register contents after the whole input. -/
theorem crc16_foldl_flip (p : CrcParams) (hp : p.proper = true) (data : List Nat)
    (hd : ∀ b ∈ data, b < 256) (i k : Nat) (hi : i < data.length) (hk : k < 8) (c : Nat)
    (hc : c < 65536) :
    (flipBit data i k).foldl (crc16_update p) c ≠ data.foldl (crc16_update p) c := by
  induction data generalizing i c with
  | nil => simp at hi
  | cons x xs ih =>
    have hx := hd x (List.mem_cons_self _ _)
    have hxs : ∀ b ∈ xs, b < 256 := fun b hb => hd b (List.mem_cons_of_mem _ hb)
    cases i with
    | zero =>
      have hf : flipBit (x :: xs) 0 k = (x ^^^ 2 ^ k) :: xs := rfl
      rw [hf, List.foldl_cons, List.foldl_cons]
      intro h
      obtain ⟨hlt, hne⟩ := flip_byte x k hx hk
      have h1 := crc16_foldl_inj p hp xs hxs _ _ (crc16_update_lt p hp c _ hc hlt)
        (crc16_update_lt p hp c x hc hx) h
      exact hne (crc16_update_inj_byte p hp c _ _ hc hlt hx h1)
    | succ j =>
      have hf : flipBit (x :: xs) (j + 1) k = x :: flipBit xs j k := rfl
      rw [hf, List.foldl_cons, List.foldl_cons]
      exact ih hxs j (by simpa using hi) _ (crc16_update_lt p hp c x hc hx)

/-! ## Checksum: frames -/

/-- Writing at or behind offset `n` does not change the first `n` bytes. -/
theorem take_set_of_le (l : List Nat) (n m a : Nat) (h : n ≤ m) :
    (l.set m a).take n = l.take n := by
  apply List.ext_getElem?
  intro j
  rw [List.getElem?_take, List.getElem?_take]
  split
  · rw [List.getElem?_set_ne (by omega)]
  · rfl

/-- Inverting a bit in front of offset `n` commutes with taking the first `n` bytes. -/
theorem take_flipBit (l : List Nat) (n i k : Nat) (h : i < n) :
    (flipBit l i k).take n = flipBit (l.take n) i k := by
  unfold flipBit
  rw [List.set_take, List.getD_eq_getElem?_getD, List.getD_eq_getElem?_getD,
    List.getElem?_take_of_lt h]

/-- Inverting a bit of byte `i` leaves the bytes at other offsets as they are. -/
theorem getD_flipBit_ne (l : List Nat) (i k j : Nat) (h : i ≠ j) :
    (flipBit l i k).getD j 0 = l.getD j 0 := by
  unfold flipBit
  rw [List.getD_eq_getElem?_getD, List.getElem?_set_ne h, List.getD_eq_getElem?_getD]

theorem calculate_crc16_lt (p : CrcParams) (hp : p.proper = true) (data : List Nat)
    (hd : ∀ b ∈ data, b < 256) (n : Nat) : calculate_crc16 p data n < 65536 :=
  crc16_foldl_lt p hp _ (fun b hb => hd b (List.mem_of_mem_take hb)) _ (proper_bounds p hp).2.1

/-- Inverting one bit among the first `n` bytes changes the checksum of the first `n`
bytes. -/
theorem calculate_crc16_flip (p : CrcParams) (hp : p.proper = true) (data : List Nat)
    (hd : ∀ b ∈ data, b < 256) (n i k : Nat) (hi : i < n) (hn : n ≤ data.length)
    (hk : k < 8) :
    calculate_crc16 p (flipBit data i k) n ≠ calculate_crc16 p data n := by
  unfold calculate_crc16
  rw [take_flipBit data n i k hi]
  refine crc16_foldl_flip p hp (data.take n) (fun b hb => hd b (List.mem_of_mem_take hb))
    i k ?_ hk _ (proper_bounds p hp).2.1
  rw [List.length_take]
  omega

/-- The checksum is computed over the first `length` bytes only: bytes written at or behind
offset `length` do not change it. -/
theorem calculate_crc16_append (p : CrcParams) (payload : List Nat) (length : Nat) :
    calculate_crc16 p (append_crc_to_payload p payload length) length =
      calculate_crc16 p payload length := by
  unfold append_crc_to_payload calculate_crc16
  split_ifs <;>
    rw [take_set_of_le _ _ _ _ (Nat.le_succ length), take_set_of_le _ _ _ _ (Nat.le_refl length)]

theorem length_append_crc (p : CrcParams) (payload : List Nat) (length : Nat) :
    (append_crc_to_payload p payload length).length = payload.length := by
  unfold append_crc_to_payload
  split_ifs <;> simp

/-- The trailer written by `append_crc_to_payload` into a 16-byte buffer reads back as the
checksum of the first 14 bytes. -/
theorem trailer_append_crc (p : CrcParams) (hp : p.proper = true) (frame : List Nat)
    (hlen : frame.length = FAN_FRAMESIZE) (hd : ∀ b ∈ frame, b < 256) :
    trailer p (append_crc_to_payload p frame (FAN_FRAMESIZE - 2)) =
      calculate_crc16 p frame (FAN_FRAMESIZE - 2) := by
  have hc : calculate_crc16 p frame 14 < 65536 := calculate_crc16_lt p hp frame hd 14
  have hl : frame.length = 16 := hlen
  unfold trailer append_crc_to_payload
  simp only [FAN_FRAMESIZE, Nat.reduceSub]
  split_ifs
  · simp only [List.getD_eq_getElem?_getD, Nat.reduceSub, Nat.reduceAdd]
    rw [List.getElem?_set_ne (by decide), List.getElem?_set_self (by omega),
      List.getElem?_set_self (by simp; omega)]
    simp only [Option.getD_some]
    omega
  · simp only [List.getD_eq_getElem?_getD, Nat.reduceSub, Nat.reduceAdd]
    rw [List.getElem?_set_ne (by decide), List.getElem?_set_self (by omega),
      List.getElem?_set_self (by simp; omega)]
    simp only [Option.getD_some]
    omega

theorem trailer_flipBit (p : CrcParams) (bytes : List Nat) (i k : Nat)
    (hi : i < FAN_FRAMESIZE - 2) : trailer p (flipBit bytes i k) = trailer p bytes := by
  have hi2 : i < 14 := hi
  unfold trailer
  rw [getD_flipBit_ne bytes i k (FAN_FRAMESIZE - 2) (by simp only [FAN_FRAMESIZE]; omega),
    getD_flipBit_ne bytes i k (FAN_FRAMESIZE - 1) (by simp only [FAN_FRAMESIZE]; omega)]

/-! ## Checksum sensitivity -/

/-- C2: checksum sensitivity.  For every 16-byte frame buffer and every bit position in
bytes 0..13, inverting that bit changes the 16-bit value that `calculate_crc16` returns for
the first 14 bytes.  Hence the frame whose trailer was written by `append_crc_to_payload`,
which decodes successfully as it is, is reported as `InvalidChecksum` by the decoder once
the bit is inverted.  This holds for every 16-bit generator with a constant term, every
initial value, either bit order and either trailer byte order. -/
theorem checksum_sensitivity (p : CrcParams) (hp : p.proper = true) (frame : List Nat)
    (hlen : frame.length = FAN_FRAMESIZE) (hbytes : ∀ b ∈ frame, uint8_ok b) (i k : Nat)
    (hi : i < FAN_FRAMESIZE - 2) (hk : k < 8) :
    calculate_crc16 p frame (FAN_FRAMESIZE - 2) < 2 ^ 16 ∧
    calculate_crc16 p (flipBit frame i k) (FAN_FRAMESIZE - 2) ≠
      calculate_crc16 p frame (FAN_FRAMESIZE - 2) ∧
    (∃ f : Frame, decode p (append_crc_to_payload p frame (FAN_FRAMESIZE - 2)) =
      Except.ok f) ∧
    decode p (flipBit (append_crc_to_payload p frame (FAN_FRAMESIZE - 2)) i k) =
      Except.error DecodeError.InvalidChecksum := by
  have hd : ∀ b ∈ frame, b < 256 := hbytes
  have hn : FAN_FRAMESIZE - 2 ≤ frame.length := by rw [hlen]; exact Nat.sub_le _ _
  have hflip := calculate_crc16_flip p hp frame hd (FAN_FRAMESIZE - 2) i k hi hn hk
  have hlen2 := length_append_crc p frame (FAN_FRAMESIZE - 2)
  have htr := trailer_append_crc p hp frame hlen hd
  have hcrc := calculate_crc16_append p frame (FAN_FRAMESIZE - 2)
  refine ⟨calculate_crc16_lt p hp frame hd _, hflip, ?_, ?_⟩
  · unfold decode
    rw [if_neg (by rw [hlen2, hlen]; simp), if_neg (by rw [hcrc, htr]; simp)]
    exact ⟨_, rfl⟩
  · have hlen3 : (flipBit (append_crc_to_payload p frame (FAN_FRAMESIZE - 2)) i k).length =
        FAN_FRAMESIZE := by
      unfold flipBit
      rw [List.length_set, hlen2, hlen]
    have hcrc2 : calculate_crc16 p
        (flipBit (append_crc_to_payload p frame (FAN_FRAMESIZE - 2)) i k) (FAN_FRAMESIZE - 2) =
        calculate_crc16 p (flipBit frame i k) (FAN_FRAMESIZE - 2) := by
      unfold calculate_crc16
      rw [take_flipBit _ _ i k hi, take_flipBit _ _ i k hi]
      congr 2
      unfold append_crc_to_payload
      split_ifs <;>
        rw [take_set_of_le _ _ _ _ (Nat.le_succ _), take_set_of_le _ _ _ _ (Nat.le_refl _)]
    unfold decode
    rw [if_neg (by rw [hlen3]; simp), if_pos]
    rw [hcrc2, trailer_flipBit p _ i k hi, htr]
    exact hflip

/-- Witness for `checksum_sensitivity`: the sample frame with bit 2 of byte 3 inverted under
the CCITT parameters, and with bit 7 of byte 13 inverted under the reflected parameters. -/
theorem checksum_sensitivity_witness :
    (crcCcitt.proper = true ∧ sampleFrame.length = FAN_FRAMESIZE ∧
      (∀ b ∈ sampleFrame, uint8_ok b) ∧ 3 < FAN_FRAMESIZE - 2 ∧ 2 < 8 ∧
      calculate_crc16 crcCcitt (flipBit sampleFrame 3 2) (FAN_FRAMESIZE - 2) ≠
        calculate_crc16 crcCcitt sampleFrame (FAN_FRAMESIZE - 2) ∧
      decode crcCcitt
          (flipBit (append_crc_to_payload crcCcitt sampleFrame (FAN_FRAMESIZE - 2)) 3 2) =
        Except.error DecodeError.InvalidChecksum) ∧
    (crcReflected.proper = true ∧ 13 < FAN_FRAMESIZE - 2 ∧ 7 < 8 ∧
      decode crcReflected
          (flipBit (append_crc_to_payload crcReflected sampleFrame (FAN_FRAMESIZE - 2)) 13 7) =
        Except.error DecodeError.InvalidChecksum) :=
  ⟨⟨by decide, by decide, by decide, by decide, by decide,
    (checksum_sensitivity crcCcitt (by decide) sampleFrame (by decide) (by decide) 3 2
      (by decide) (by decide)).2.1,
    (checksum_sensitivity crcCcitt (by decide) sampleFrame (by decide) (by decide) 3 2
      (by decide) (by decide)).2.2.2⟩,
   ⟨by decide, by decide, by decide,
    (checksum_sensitivity crcReflected (by decide) sampleFrame (by decide) (by decide) 13 7
      (by decide) (by decide)).2.2.2⟩⟩

end Zehnder
